/-
  Verification development for the cat-sightings backend
  (FastAPI service in src/main.py, src/models.py, src/database.py).

  The Python code is shallowly embedded: every handler and helper that the
  properties below refer to is translated into an executable Lean definition.
  Strings are processed as `List Char`; Python datetimes are modelled by
  `PyDateTime` (civil fields plus an optional fixed UTC-offset in seconds).
  Naive local datetimes are modelled with a fixed local offset of 0 (the
  offset cancels in every round-trip the code performs, and DST transitions
  are outside the model, as the spec itself leaves them open).
-/
import Mathlib

/-! ### Calendar arithmetic (civil ↔ day-number conversions)

These implement the standard civil-calendar algorithms used to model
Python's `datetime.timestamp` / `datetime.fromtimestamp` pair. -/

/-- Proleptic-Gregorian: day count since 1970-01-01 → (year, month, day). -/
def civilFromDays (z0 : Int) : Int × Nat × Nat :=
  let z := z0 + 719468
  let era : Int := z.fdiv 146097
  let doe : Nat := (z - era * 146097).toNat
  let yoe : Nat := (doe - doe / 1460 + doe / 36524 - doe / 146096) / 365
  let y : Int := (yoe : Int) + era * 400
  let doy : Nat := doe - (365 * yoe + yoe / 4 - yoe / 100)
  let mp : Nat := (5 * doy + 2) / 153
  let d : Nat := doy - (153 * mp + 2) / 5 + 1
  let m : Nat := if mp < 10 then mp + 3 else mp - 9
  (if m ≤ 2 then y + 1 else y, m, d)

/-- Proleptic-Gregorian: (year, month, day) → day count since 1970-01-01. -/
def daysFromCivil (y0 : Int) (m d : Nat) : Int :=
  let y : Int := if m ≤ 2 then y0 - 1 else y0
  let era : Int := y.fdiv 400
  let yoe : Nat := (y - era * 400).toNat
  let mp : Nat := if 2 < m then m - 3 else m + 9
  let doy : Nat := (153 * mp + 2) / 5 + d - 1
  let doe : Nat := yoe * 365 + yoe / 4 - yoe / 100 + doy
  era * 146097 + (doe : Int) - 719468

/-- Gregorian leap-year test. -/
def isLeapYear (y : Nat) : Bool :=
  y % 4 == 0 && (y % 100 != 0 || y % 400 == 0)

/-- Number of days in a month (as validated by Python's `datetime`). -/
def daysInMonth (y m : Nat) : Nat :=
  if m = 2 then (if isLeapYear y then 29 else 28)
  else if m = 4 ∨ m = 6 ∨ m = 9 ∨ m = 11 then 30
  else 31

/-! ### The datetime model -/

/-- Model of a Python `datetime.datetime`: civil fields plus an optional
fixed UTC offset in seconds (`none` = naive). -/
structure PyDateTime where
  year : Nat
  month : Nat
  day : Nat
  hour : Nat
  minute : Nat
  second : Nat
  microsecond : Nat
  tz : Option Int
deriving DecidableEq, Repr

/-- Field-validity as guaranteed by Python's `datetime` constructor. -/
def PyDateTime.valid (t : PyDateTime) : Prop :=
  1 ≤ t.year ∧ t.year ≤ 9999 ∧ 1 ≤ t.month ∧ t.month ≤ 12 ∧
  1 ≤ t.day ∧ t.day ≤ 31 ∧ t.hour ≤ 23 ∧ t.minute ≤ 59 ∧
  t.second ≤ 59 ∧ t.microsecond ≤ 999999

instance (t : PyDateTime) : Decidable t.valid := by
  unfold PyDateTime.valid; infer_instance

/-- Microseconds since the epoch, as `datetime.timestamp()` computes it
(a naive value is interpreted with the model's fixed local offset 0). -/
def timestampUs (t : PyDateTime) : Int :=
  daysFromCivil (t.year : Int) t.month t.day * 86400000000
    + ((t.hour * 3600 + t.minute * 60 + t.second : Nat) : Int) * 1000000
    + (t.microsecond : Int) - (t.tz.getD 0) * 1000000

/-- Model of `datetime.fromtimestamp(x)` without a tz argument: naive local result
(fixed local offset 0 in the model; the platform-dependent year-range
overflow of naive conversions is not modelled). Input in microseconds. -/
def fromtimestampLocal (x : Int) : PyDateTime :=
  let day : Int := x.ediv 86400000000
  let tod : Nat := (x.emod 86400000000).toNat
  let (y, m, d) := civilFromDays day
  let secs := tod / 1000000
  { year := y.toNat, month := m, day := d,
    hour := secs / 3600, minute := secs % 3600 / 60, second := secs % 60,
    microsecond := tod % 1000000, tz := none }

/-- Model of `datetime.fromtimestamp(x, tz=timezone.utc)`: aware UTC result, `none`
when the resulting year falls outside `datetime`'s 1..9999 range (Python
raises there, and the caller catches). Input in whole seconds. -/
def fromtimestampUTC (n : Int) : Option PyDateTime :=
  let day : Int := n.ediv 86400
  let tod : Nat := (n.emod 86400).toNat
  let (y, m, d) := civilFromDays day
  if 1 ≤ y ∧ y ≤ 9999 then
    some { year := y.toNat, month := m, day := d,
           hour := tod / 3600, minute := tod % 3600 / 60, second := tod % 60,
           microsecond := 0, tz := some 0 }
  else none

/-- A total order key on datetimes: microseconds since epoch ignoring the
offset; all stored timestamps are compared in one frame by the database. -/
def dtCode (t : PyDateTime) : Int :=
  daysFromCivil (t.year : Int) t.month t.day * 86400000000
    + ((t.hour * 3600 + t.minute * 60 + t.second : Nat) : Int) * 1000000
    + (t.microsecond : Int)

/-! ### Character-list string utilities (Python string operations) -/

/-- Numeric value of a decimal digit character. -/
def digitVal (c : Char) : Nat := c.toNat - '0'.toNat

/-- Parse exactly `n` decimal digits, most significant first. -/
def parseNDigits : Nat → List Char → Nat → Option (Nat × List Char)
  | 0, cs, acc => some (acc, cs)
  | n + 1, c :: cs, acc =>
      if c.isDigit then parseNDigits n cs (acc * 10 + digitVal c) else none
  | _ + 1, [], _ => none

/-- Consume one expected character. -/
def expectChar (c : Char) : List Char → Option (List Char)
  | d :: cs => if d = c then some cs else none
  | [] => none

/-- Python `str.strip()` (whitespace at both ends). -/
def pyStrip (cs : List Char) : List Char :=
  ((cs.dropWhile Char.isWhitespace).reverse.dropWhile Char.isWhitespace).reverse

/-! ### ISO-8601 parsing (`datetime.fromisoformat` / `date.fromisoformat`)

The grammar modelled is the one these functions accept on the inputs this
service handles: `YYYY-MM-DD`, optionally followed by a `T`/space separator,
`HH:MM[:SS[.f{1..6}]]`, optionally followed by a `±HH:MM` offset. A bare
calendar date parses as `datetime` midnight — exactly as in Python, where
`datetime.fromisoformat` accepts every string `date.fromisoformat` does. -/

/-- Parse the `YYYY-MM-DD` prefix. -/
def parseDatePart (cs : List Char) : Option ((Nat × Nat × Nat) × List Char) :=
  match parseNDigits 4 cs 0 with
  | none => none
  | some (y, cs) =>
    match expectChar '-' cs with
    | none => none
    | some cs =>
      match parseNDigits 2 cs 0 with
      | none => none
      | some (m, cs) =>
        match expectChar '-' cs with
        | none => none
        | some cs =>
          match parseNDigits 2 cs 0 with
          | none => none
          | some (d, cs) => some ((y, m, d), cs)

/-- Parse a fractional-seconds suffix `.d{1..6}` into microseconds. -/
def parseFraction (cs : List Char) : Option (Nat × List Char) :=
  match cs with
  | '.' :: rest =>
    let ds := rest.takeWhile Char.isDigit
    if ds.length = 0 ∨ 6 < ds.length then none
    else
      let v := ds.foldl (fun a c => a * 10 + digitVal c) 0
      some (v * 10 ^ (6 - ds.length), rest.drop ds.length)
  | _ => none

/-- Parse `HH:MM[:SS[.ffffff]]`. -/
def parseTimePart (cs : List Char) :
    Option ((Nat × Nat × Nat × Nat) × List Char) :=
  match parseNDigits 2 cs 0 with
  | none => none
  | some (h, cs) =>
    match expectChar ':' cs with
    | none => none
    | some cs =>
      match parseNDigits 2 cs 0 with
      | none => none
      | some (mi, cs) =>
        match expectChar ':' cs with
        | none => some ((h, mi, 0, 0), cs)
        | some cs2 =>
          match parseNDigits 2 cs2 0 with
          | none => none
          | some (se, cs3) =>
            match parseFraction cs3 with
            | some (us, cs4) => some ((h, mi, se, us), cs4)
            | none => some ((h, mi, se, 0), cs3)

/-- Parse a `±HH:MM` UTC-offset suffix into offset seconds. -/
def parseOffsetPart (cs : List Char) : Option (Int × List Char) :=
  let go : Bool → List Char → Option (Int × List Char) := fun neg cs =>
    match parseNDigits 2 cs 0 with
    | none => none
    | some (oh, cs) =>
      match expectChar ':' cs with
      | none => none
      | some cs =>
        match parseNDigits 2 cs 0 with
        | none => none
        | some (om, cs) =>
          if oh ≤ 23 ∧ om ≤ 59 then
            let v : Int := (oh * 3600 + om * 60 : Nat)
            some (if neg then -v else v, cs)
          else none
  match cs with
  | '+' :: rest => go false rest
  | '-' :: rest => go true rest
  | _ => none

/-- Range validation performed by the `datetime` constructor. -/
def validateDT (t : PyDateTime) : Option PyDateTime :=
  if 1 ≤ t.year ∧ t.year ≤ 9999 ∧ 1 ≤ t.month ∧ t.month ≤ 12 ∧
     1 ≤ t.day ∧ t.day ≤ daysInMonth t.year t.month ∧
     t.hour ≤ 23 ∧ t.minute ≤ 59 ∧ t.second ≤ 59
  then some t else none

/-- Model of `datetime.fromisoformat`. -/
def datetimeFromisoformat (s : String) : Option PyDateTime :=
  match parseDatePart s.toList with
  | none => none
  | some ((y, mo, d), rest) =>
    match rest with
    | [] =>
        validateDT
          { year := y, month := mo, day := d, hour := 0, minute := 0,
            second := 0, microsecond := 0, tz := none }
    | sep :: rest2 =>
      if sep = 'T' ∨ sep = ' ' then
        match parseTimePart rest2 with
        | none => none
        | some ((h, mi, se, us), rest3) =>
          match rest3 with
          | [] =>
              validateDT
                { year := y, month := mo, day := d, hour := h, minute := mi,
                  second := se, microsecond := us, tz := none }
          | _ =>
            match parseOffsetPart rest3 with
            | some (off, []) =>
                validateDT
                  { year := y, month := mo, day := d, hour := h, minute := mi,
                    second := se, microsecond := us, tz := some off }
            | _ => none
      else none

/-- Model of `date.fromisoformat` (strictly `YYYY-MM-DD`). -/
def dateFromisoformat (s : String) : Option (Nat × Nat × Nat) :=
  match parseDatePart s.toList with
  | some ((y, m, d), []) =>
      if 1 ≤ y ∧ y ≤ 9999 ∧ 1 ≤ m ∧ m ≤ 12 ∧ 1 ≤ d ∧ d ≤ daysInMonth y m
      then some (y, m, d) else none
  | _ => none

/-! ### `_parse_spotted_at` (pydantic before-validator, src/main.py:67-100) -/

/-- A raw JSON value reaching the `spotted_at` before-validator. -/
inductive SpottedVal where
  | vnone : SpottedVal
  | vdt : PyDateTime → SpottedVal
  | vnum : Int → SpottedVal
  | vstr : String → SpottedVal
deriving DecidableEq, Repr

/-- Make a datetime timezone-aware, defaulting a naive one to UTC
(`v if v.tzinfo else v.replace(tzinfo=timezone.utc)`). -/
def ensureAwareUTC (t : PyDateTime) : PyDateTime :=
  if t.tz.isSome then t else { t with tz := some 0 }

/-- The `_parse_spotted_at` field validator, line by line. -/
def parseSpottedAt : SpottedVal → Option PyDateTime
  | .vnone => none
  | .vdt d => some (ensureAwareUTC d)
  | .vnum n => fromtimestampUTC n
  | .vstr s0 =>
    let s := pyStrip s0.toList
    if s = [] then none
    else
      let s := if s.getLast? = some 'Z'
               then s.dropLast ++ "+00:00".toList else s
      let str := String.mk s
      match datetimeFromisoformat str with
      | some dt => some (ensureAwareUTC dt)
      | none =>
        match dateFromisoformat str with
        | some (y, m, d) =>
            some { year := y, month := m, day := d, hour := 12, minute := 0,
                   second := 0, microsecond := 0, tz := some 0 }
        | none => none

/-! ### `_parse_date_range` (src/main.py:201-217) -/

/-- Set the time-of-day fields, keeping the date and tzinfo
(`datetime.replace`). -/
def replaceTime (t : PyDateTime) (h mi se us : Nat) : PyDateTime :=
  { t with hour := h, minute := mi, second := se, microsecond := us }

/-- Model of `_parse_date_range(start, end)`; `now` is the value of `datetime.now()`.
An unparseable non-empty string raises `ValueError` inside the handler,
modelled as `Except.error`. -/
def parseDateRange (start? end? : Option String) (now : PyDateTime) :
    Except Unit (PyDateTime × PyDateTime) := do
  let endDt ← match end? with
    | none => Except.ok now
    | some s =>
      if s = "" then Except.ok now
      else match datetimeFromisoformat s with
        | none => Except.error ()
        | some d => Except.ok (replaceTime d 23 59 59 999999)
  let startDt ← match start? with
    | none =>
        Except.ok (fromtimestampLocal (timestampUs endDt - 29 * 24 * 3600 * 1000000))
    | some s =>
      if s = "" then
        Except.ok (fromtimestampLocal (timestampUs endDt - 29 * 24 * 3600 * 1000000))
      else match datetimeFromisoformat s with
        | none => Except.error ()
        | some d => Except.ok (replaceTime d 0 0 0 0)
  return (startDt, endDt)

/-! ### The data model (src/models.py) -/

/-- One row of the `cat_sightings` table. `source` is `Option` so that the
`NULL`-bucketing of the reporting query can be stated. -/
structure CatSighting where
  id : Int
  lat : Float
  lng : Float
  address : Option String
  description : Option String
  cat_name : Option String
  image_url : Option String
  source : Option String
  spotted_at : Option PyDateTime
  created_at : PyDateTime
  updated_at : PyDateTime

/-- The table CHECK constraint `source in ('map','address')` together with
the NOT NULL constraint on `source` (src/models.py:15-21). -/
def sourceConstraintOK (s : Option String) : Bool :=
  match s with
  | some v => v = "map" ∨ v = "address"
  | none => false

/-- The ways a create request can fail in the source: the SQLAlchemy
declarative constructor rejecting an unmapped keyword argument with
`TypeError`, or the database rejecting the row at the CHECK constraint. -/
inductive CreateError where
  | typeError : CreateError
  | checkViolation : CreateError
deriving DecidableEq, Repr

/-- Storage-layer insert: enforces the `source` constraint, otherwise
appends the row (`db.add` + `db.commit`). -/
def insertSighting (db : List CatSighting) (row : CatSighting) :
    Except CreateError (List CatSighting) :=
  if sourceConstraintOK row.source then Except.ok (db ++ [row])
  else Except.error CreateError.checkViolation

/-! ### Create handler (src/main.py:134-171) -/

/-- Python `x or y` on optional strings: `None` and `""` are falsy. -/
def pyOrStr (a b : Option String) : Option String :=
  if a = none ∨ a = some "" then b else a

/-- Model of `dict.get`: `none` both when the key is absent and when its value is
JSON null (a raw value is an `Option String`, `none` modelling null). -/
def rawGet (raw : List (String × Option String)) (k : String) : Option String :=
  match raw.find? (fun kv => kv.1 == k) with
  | some kv => kv.2
  | none => none

/-- The key normalization `str(k).replace("_", "").lower()`. -/
def normKey (k : String) : String :=
  String.mk ((k.toList.filter (fun c => c ≠ '_')).map Char.toLower)

/-- The loop predicate: `nk == "catname" or nk.endswith("catname")`. -/
def catNameKey (k : String) : Bool :=
  let nk := (normKey k).toList
  nk = "catname".toList ∨ "catname".toList.isSuffixOf nk

/-- The cat-name fallback chain of `create_cat_sighting`
(src/main.py:144-153): the typed field, then raw `cat_name`, then raw
`catName`, then — only when that chain produced `None` — the first raw key
whose normalized name equals or ends with `catname`. -/
def resolveCatName (parsed : Option String)
    (raw : List (String × Option String)) : Option String :=
  let v1 := pyOrStr (pyOrStr parsed (rawGet raw "cat_name")) (rawGet raw "catName")
  match v1 with
  | some v => some v
  | none =>
    match raw.find? (fun kv => catNameKey kv.1) with
    | some kv => kv.2
    | none => none

/-- The source default `sighting.source or "map"` (src/main.py:164). -/
def resolveSource (s : Option String) : String :=
  match s with
  | none => "map"
  | some v => if v = "" then "map" else v

/-- The pydantic-parsed create request body (`CatSightingCreate`), with the
raw value the `spotted_at` validator received. `source` defaults to
`some "map"` when the key is omitted (pydantic field default). -/
structure CreateInput where
  lat : Float
  lng : Float
  address : Option String
  description : Option String
  cat_name : Option String
  image_url : Option String
  source : Option String
  spotted_at : SpottedVal

/-- The attribute names mapped on the `CatSighting` ORM class
(src/models.py:8-17). `spotted_at` is **not** among them: models.py defines
no such column; only the physical table gains one through the best-effort
`ALTER TABLE` at src/main.py:29. -/
def mappedAttrs : List String :=
  ["id", "lat", "lng", "address", "description", "cat_name", "image_url",
   "source", "created_at", "updated_at"]

/-- The keyword-argument names `create_cat_sighting` passes to
`CatSightingModel(...)` (src/main.py:157-166). -/
def createKwargs : List String :=
  ["lat", "lng", "address", "description", "cat_name", "image_url",
   "source", "spotted_at"]

/-- The keyword-argument values `create_cat_sighting` computes before the
constructor call (src/main.py:137-166): `spotted_at` resolved through the
validator and defaulted to now, the cat-name fallback applied, `source`
defaulted, `image_url` taken from the typed parse alone. -/
structure CreateKwargValues where
  lat : Float
  lng : Float
  address : Option String
  description : Option String
  cat_name : Option String
  image_url : Option String
  source : String
  spotted_at : PyDateTime

/-- Computation of the keyword-argument values (src/main.py:137-166). -/
def createKwargValues (inp : CreateInput) (raw : List (String × Option String))
    (now : PyDateTime) : CreateKwargValues :=
  { lat := inp.lat, lng := inp.lng,
    address := inp.address, description := inp.description,
    cat_name := resolveCatName inp.cat_name raw,
    image_url := inp.image_url,
    source := resolveSource inp.source,
    spotted_at := (parseSpottedAt inp.spotted_at).getD now }

/-- Model of `CatSightingModel(**kwargs)`: SQLAlchemy's declarative
constructor raises `TypeError` for any keyword argument that is not a
mapped attribute. Since `spotted_at` is passed (src/main.py:165) but not
mapped (src/models.py has no such column), the first branch always fires
for this code; the success branch is unreachable. -/
def catSightingModelCtor (vals : CreateKwargValues) (newId : Int)
    (now : PyDateTime) : Except CreateError CatSighting :=
  match createKwargs.find? (fun k => !(mappedAttrs.contains k)) with
  | some _ => Except.error CreateError.typeError
  | none =>
      Except.ok { id := newId, lat := vals.lat, lng := vals.lng,
                  address := vals.address, description := vals.description,
                  cat_name := vals.cat_name, image_url := vals.image_url,
                  source := some vals.source,
                  spotted_at := some vals.spotted_at,
                  created_at := now, updated_at := now }

/-- Handler `create_cat_sighting`: computes the keyword arguments, calls
the mapped constructor (which raises `TypeError` for this code), and only
then would insert the row. -/
def createCatSighting (inp : CreateInput) (raw : List (String × Option String))
    (now : PyDateTime) (newId : Int) (db : List CatSighting) :
    Except CreateError (List CatSighting × CatSighting) := do
  let vals := createKwargValues inp raw now
  let row ← catSightingModelCtor vals newId now
  let db2 ← insertSighting db row
  return (db2, row)

/-! ### Get-by-id handler (src/main.py:173-178) -/

/-- Handler `get_cat_sighting`: first row with the given id, else a 404 error;
returns the (unchanged) database state alongside to express that the
lookup has no side effects. -/
def getCatSighting (db : List CatSighting) (i : Int) :
    (Except Unit CatSighting) × List CatSighting :=
  (match db.find? (fun r => r.id == i) with
   | some r => Except.ok r
   | none => Except.error (), db)

/-! ### Upload handler (src/main.py:180-199) -/

/-- Model of `pathlib.Path(filename).suffix`: the final extension of the last path
component, empty when the only dot is leading or trailing. -/
def pySuffix (filename : String) : String :=
  let nm := (filename.toList.reverse.takeWhile (fun c => c ≠ '/')).reverse
  if nm.contains '.' then
    let tail := nm.reverse.takeWhile (fun c => c ≠ '.')
    let i := nm.length - tail.length - 1
    if 0 < i ∧ 0 < tail.length then String.mk (nm.drop i) else ""
  else ""

/-- Model of `str.lower()` (ASCII, as used on file extensions). -/
def toLowerStr (s : String) : String := String.mk (s.toList.map Char.toLower)

/-- The extension allowlist of the upload handler. -/
def extAllowlist : List String := [".jpg", ".jpeg", ".png", ".gif", ".webp"]

/-- Handler `upload_image`: content-type gate, extension resolution, stored name.
Returns the response url together with the list of files written; the
rejection path returns before anything is written to disk. -/
def uploadImage (contentType : Option String) (filename : Option String)
    (uuidHex : String) : Except Unit (String × List String) :=
  let ctBad : Bool :=
    match contentType with
    | none => true
    | some ct => ct = "" ∨ ¬ ("image/".toList.isPrefixOf ct.toList)
  if ctBad then Except.error ()
  else
    let ext0 := toLowerStr (pySuffix (filename.getD ""))
    let ext := if ext0 ∈ extAllowlist then ext0 else ".jpg"
    let name := uuidHex ++ ext
    Except.ok ("/uploads/" ++ name, [name])

/-! ### Reporting aggregator (src/main.py:219-268) -/

/-- The filter predicate shared by all report queries:
`created_at >= start AND created_at <= end` (inclusive both ends). -/
def matchingRows (db : List CatSighting) (s e : PyDateTime) :
    List CatSighting :=
  db.filter (fun r =>
    decide (dtCode s ≤ dtCode r.created_at ∧ dtCode r.created_at ≤ dtCode e))

/-- The summary total, `base_q.count()`. -/
def summaryTotal (db : List CatSighting) (s e : PyDateTime) : Nat :=
  (matchingRows db s e).length

/-- The dict-key normalization `s or "unknown"`. -/
def sourceKey : Option String → String
  | none => "unknown"
  | some s => if s = "" then "unknown" else s

/-- The query `GROUP BY source` with `s or "unknown"` keys: one entry per distinct
source value among the matching rows, keyed through `sourceKey`. -/
def bySource (db : List CatSighting) (s e : PyDateTime) :
    List (String × Nat) :=
  let srcs := (matchingRows db s e).map (fun r => r.source)
  srcs.dedup.map (fun src => (sourceKey src, srcs.count src))

/-- Lookup in the summary's `by_source` mapping (first pair with the key). -/
def alistGet (l : List (String × Nat)) (k : String) : Option Nat :=
  (l.find? (fun p => p.1 == k)).map (fun p => p.2)

/-- A calendar date, as produced by SQL `date(created_at)`. -/
structure CalDate where
  year : Nat
  month : Nat
  day : Nat
deriving DecidableEq, Repr

/-- Strict lexicographic (calendar) order on dates. -/
def CalDate.before (a b : CalDate) : Prop :=
  a.year < b.year ∨ (a.year = b.year ∧
    (a.month < b.month ∨ (a.month = b.month ∧ a.day < b.day)))

instance (a b : CalDate) : Decidable (a.before b) := by
  unfold CalDate.before; infer_instance

/-- Order-preserving numeric encoding of a (valid) calendar date. -/
def CalDate.code (d : CalDate) : Nat := (d.year * 13 + d.month) * 32 + d.day

/-- Inverse of `CalDate.code` on valid dates. -/
def decodeDate (c : Nat) : CalDate := ⟨c / 416, c / 32 % 13, c % 32⟩

/-- The calendar date of a stored timestamp (`date(created_at)`). -/
def dateOfDT (t : PyDateTime) : CalDate := ⟨t.year, t.month, t.day⟩

/-- The query `GROUP BY date(created_at) ORDER BY date(created_at)`: the distinct
dates of matching rows in ascending order, each with its row count. -/
def perDay (db : List CatSighting) (s e : PyDateTime) :
    List (CalDate × Nat) :=
  ((((matchingRows db s e).map
      (fun r => (dateOfDT r.created_at).code)).toFinset.sort (· ≤ ·)).map
    (fun c => (decodeDate c,
      ((matchingRows db s e).map
        (fun r => (dateOfDT r.created_at).code)).count c)))

/-- The `/api/reports/summary` response body. -/
structure SummaryOut where
  total : Nat
  by_source : List (String × Nat)
  per_day : List (CalDate × Nat)
  startDt : PyDateTime
  endDt : PyDateTime

/-- Handler `get_reports_summary`. -/
def getReportsSummary (start? end? : Option String) (now : PyDateTime)
    (db : List CatSighting) : Except Unit SummaryOut := do
  let (s, e) ← parseDateRange start? end? now
  return { total := summaryTotal db s e, by_source := bySource db s e,
           per_day := perDay db s e, startDt := s, endDt := e }

/-! ### CSV export (src/main.py:270-326) -/

/-- The fixed CSV header row. -/
def csvHeader : List String :=
  ["id", "lat", "lng", "address", "description", "cat_name", "image_url",
   "source", "spotted_at", "created_at", "updated_at"]

/-- Zero-padded decimal rendering. -/
def padNum (w n : Nat) : String :=
  let s := toString n
  String.mk (List.replicate (w - s.length) '0') ++ s

/-- Model of `datetime.isoformat()`. -/
def isoformatDT (t : PyDateTime) : String :=
  padNum 4 t.year ++ "-" ++ padNum 2 t.month ++ "-" ++ padNum 2 t.day ++ "T"
    ++ padNum 2 t.hour ++ ":" ++ padNum 2 t.minute ++ ":" ++ padNum 2 t.second
    ++ (if t.microsecond = 0 then "" else "." ++ padNum 6 t.microsecond)
    ++ (match t.tz with
        | none => ""
        | some off =>
          (if off < 0 then "-" else "+") ++ padNum 2 (off.natAbs / 3600)
            ++ ":" ++ padNum 2 (off.natAbs % 3600 / 60))

/-- One CSV data row (optional text fields as empty strings, the CSV
writer also rendering a NULL value as the empty string). -/
def renderRow (r : CatSighting) : List String :=
  [toString r.id, toString r.lat, toString r.lng,
   r.address.getD "", r.description.getD "", r.cat_name.getD "",
   r.image_url.getD "", r.source.getD "",
   (r.spotted_at.map isoformatDT).getD "",
   isoformatDT r.created_at, isoformatDT r.updated_at]

/-- The query `ORDER BY created_at DESC` on the matching rows. -/
def exportRows (db : List CatSighting) (s e : PyDateTime) :
    List CatSighting :=
  (matchingRows db s e).insertionSort
    (fun a b => dtCode b.created_at ≤ dtCode a.created_at)

/-- Handler `export_reports_csv`: header row followed by one rendered row per
matching sighting, newest first. -/
def exportReportsCsv (start? end? : Option String) (now : PyDateTime)
    (db : List CatSighting) : Except Unit (List (List String)) := do
  let (s, e) ← parseDateRange start? end? now
  return csvHeader :: (exportRows db s e).map renderRow

/-! ### Concrete stores used by the witnesses -/

/-- A concrete two-row store used to witness the get-by-id property. -/
def dbC9 : List CatSighting :=
  [⟨1, 1.0, 2.0, none, none, none, none, some "map", none,
    ⟨2024,1,1,0,0,0,0,none⟩, ⟨2024,1,1,0,0,0,0,none⟩⟩,
   ⟨2, 1.0, 2.0, none, none, none, none, some "map", none,
    ⟨2024,1,2,0,0,0,0,none⟩, ⟨2024,1,2,0,0,0,0,none⟩⟩]

/-- A concrete three-row store (sources map, map, address) used to witness
the summary property. -/
def dbC5 : List CatSighting :=
  [⟨1, 0.0, 0.0, none, none, none, none, some "map", none,
    ⟨2024,6,1,10,0,0,0,none⟩, ⟨2024,6,1,10,0,0,0,none⟩⟩,
   ⟨2, 0.0, 0.0, none, none, none, none, some "map", none,
    ⟨2024,6,2,11,0,0,0,none⟩, ⟨2024,6,2,11,0,0,0,none⟩⟩,
   ⟨3, 0.0, 0.0, none, none, none, none, some "address", none,
    ⟨2024,6,2,12,0,0,0,none⟩, ⟨2024,6,2,12,0,0,0,none⟩⟩]

/-! ### Decidability of `Except` equality (for concrete evaluations) -/

instance {e a : Type} [DecidableEq e] [DecidableEq a] : DecidableEq (Except e a)
  | Except.ok x, Except.ok y => decidable_of_iff (x = y) (by simp)
  | Except.ok _, Except.error _ => isFalse (fun h => by cases h)
  | Except.error _, Except.ok _ => isFalse (fun h => by cases h)
  | Except.error x, Except.error y => decidable_of_iff (x = y) (by simp)

/-! ### Shared helper lemmas -/

/-- Every string accepted by `date.fromisoformat` is accepted by
`datetime.fromisoformat` as well, at midnight: the date-only fallback
branch of `_parse_spotted_at` is unreachable. -/
theorem datetime_parses_bare_dates (s : String) (y m d : Nat)
    (h : dateFromisoformat s = some (y, m, d)) :
    datetimeFromisoformat s =
      some { year := y, month := m, day := d, hour := 0, minute := 0,
             second := 0, microsecond := 0, tz := none } := by
  unfold dateFromisoformat at h
  unfold datetimeFromisoformat
  cases hp : parseDatePart s.toList with
  | none => rw [hp] at h; cases h
  | some pr =>
    obtain ⟨⟨y', m', d'⟩, rest⟩ := pr
    rw [hp] at h
    cases rest with
    | cons c cs => cases h
    | nil =>
      simp only at h
      split at h
      · cases h
        unfold validateDT
        rename_i hcond
        simp only [if_pos]
        · rw [if_pos]
          exact ⟨hcond.1, hcond.2.1, hcond.2.2.1, hcond.2.2.2.1, hcond.2.2.2.2.1,
                 hcond.2.2.2.2.2, by omega, by omega, by omega⟩
      · cases h

/-- C1 (evaluation at the failing input): the stored `spotted_at` for the
bare date `"2024-01-15"` is **midnight** UTC, because
`datetime.fromisoformat` already accepts a bare calendar date, so the
noon-expansion branch never runs; the spec requires noon UTC. -/
theorem spotted_at_bare_date_stored_midnight :
    parseSpottedAt (SpottedVal.vstr "2024-01-15") =
      some { year := 2024, month := 1, day := 15, hour := 0, minute := 0,
             second := 0, microsecond := 0, tz := some 0 } := by decide

/-- C3 counterexample: a non-empty unparseable `end` date makes the range
resolver raise (the handler has no try/except), so the request fails
instead of falling back to a default. -/
theorem date_range_garbage_raises :
    parseDateRange none (some "garbage")
      { year := 2024, month := 5, day := 1, hour := 0, minute := 0,
        second := 0, microsecond := 0, tz := none } = Except.error () := by decide

theorem except_bind_ok {α β : Type} (a : α) (f : α → Except Unit β) :
    (Except.ok a : Except Unit α) >>= f = f a := rfl

theorem except_bind_error {α β : Type} (f : α → Except Unit β) :
    (Except.error () : Except Unit α) >>= f = Except.error () := rfl

theorem except_map_ok {α β : Type} (f : α → β) (a : α) :
    f <$> (Except.ok a : Except Unit α) = Except.ok (f a) := rfl

theorem except_map_error {α β : Type} (f : α → β) :
    f <$> (Except.error () : Except Unit α) = Except.error () := rfl

theorem except_pure {α : Type} (a : α) :
    (pure a : Except Unit α) = Except.ok a := rfl

/-- Splitting a day-aligned shift: quotient and remainder of
`tod + k * c` by `c` when `0 ≤ tod < c`. -/
theorem ediv_emod_split (tod k c : Int) (hc : c ≠ 0) (h0 : 0 ≤ tod)
    (hlt : tod < c) : (tod + k * c).ediv c = k ∧ (tod + k * c).emod c = tod := by
  show (tod + k * c) / c = k ∧ (tod + k * c) % c = tod
  constructor
  · rw [Int.add_mul_ediv_right _ _ hc, Int.ediv_eq_zero_of_lt h0 hlt]
    ring
  · rw [Int.add_mul_emod_self, Int.emod_eq_of_lt h0 hlt]

/-- C3 (amended): an absent or *empty* start/end falls back to the defined
default bound; a non-empty unparseable value raises an error (the request
fails) rather than being treated as absent. -/
theorem date_range_fallback_policy (start? end? : Option String)
    (now : PyDateTime) :
    (parseDateRange (some "") (some "") now = parseDateRange none none now) ∧
    (parseDateRange (some "") none now = parseDateRange none none now) ∧
    (parseDateRange none (some "") now = parseDateRange none none now) ∧
    (∀ es, es ≠ "" → datetimeFromisoformat es = none →
      parseDateRange start? (some es) now = Except.error ()) ∧
    (∀ ss, ss ≠ "" → datetimeFromisoformat ss = none → ∀ res,
      parseDateRange (some ss) end? now ≠ Except.ok res) := by
  refine ⟨by simp [parseDateRange], by simp [parseDateRange],
          by simp [parseDateRange], ?_, ?_⟩
  · intro es hne hparse
    simp [parseDateRange, hne, hparse, except_bind_ok, except_bind_error]
  · intro ss hne hparse res
    cases end? with
    | none => simp [parseDateRange, hne, hparse, except_bind_ok, except_bind_error]
    | some es =>
      by_cases hes : es = ""
      · simp [parseDateRange, hes, hne, hparse, except_bind_ok, except_bind_error]
      · cases hpe : datetimeFromisoformat es with
        | none =>
          simp [parseDateRange, hes, hne, hparse, hpe, except_bind_ok,
                except_bind_error]
        | some de =>
          simp [parseDateRange, hes, hne, hparse, hpe, except_bind_ok,
                except_bind_error]

/-- C3 witness: the amended fallback policy applied at a concrete garbage
start date. -/
theorem date_range_fallback_witness :
    ("nope" ≠ "" ∧ datetimeFromisoformat "nope" = none) ∧
    ∀ res, parseDateRange (some "nope") none
      { year := 2024, month := 5, day := 1, hour := 0, minute := 0,
        second := 0, microsecond := 0, tz := none } ≠ Except.ok res :=
  ⟨⟨by decide, by decide⟩,
   (date_range_fallback_policy none none _).2.2.2.2 "nope" (by decide) (by decide)⟩

/-- C9: get-by-id returns the unique matching row when one exists, a 404
error otherwise — for every integer id, including 0 and negative ids —
and leaves the stored state unchanged. -/
theorem get_by_id_spec (db : List CatSighting) (i : Int)
    (hids : (db.map fun r => r.id).Nodup) :
    (∀ r, (getCatSighting db i).1 = Except.ok r ↔ (r ∈ db ∧ r.id = i)) ∧
    ((getCatSighting db i).1 = Except.error () ↔ ∀ r ∈ db, r.id ≠ i) ∧
    (getCatSighting db i).2 = db := by
  unfold getCatSighting
  cases hf : db.find? (fun r => r.id == i) with
  | none =>
    have hall := List.find?_eq_none.mp hf
    refine ⟨?_, ?_, rfl⟩
    · intro r
      constructor
      · intro h; cases h
      · rintro ⟨hmem, hid⟩
        exact absurd (by simpa using hid) (hall r hmem)
    · simp only [true_iff]
      intro r hmem
      have := hall r hmem
      simpa using this
  | some r0 =>
    have hp : r0.id = i := by simpa using List.find?_some hf
    have hmem0 : r0 ∈ db := List.mem_of_find?_eq_some hf
    refine ⟨?_, ?_, rfl⟩
    · intro r
      constructor
      · intro h
        cases h
        exact ⟨hmem0, hp⟩
      · rintro ⟨hmem, hid⟩
        have : r = r0 :=
          List.inj_on_of_nodup_map hids hmem hmem0 (hid.trans hp.symm)
        rw [this]
    · constructor
      · intro h; cases h
      · intro hall
        exact absurd hp (hall r0 hmem0)

/-- C9 witness: on the concrete store, id 0 (never created) yields 404. -/
theorem get_by_id_witness :
    (dbC9.map fun r => r.id).Nodup ∧
    ((getCatSighting dbC9 0).1 = Except.error () ↔ ∀ r ∈ dbC9, r.id ≠ 0) :=
  ⟨by decide, (get_by_id_spec dbC9 0 (by decide)).2.1⟩

/-- C4 (evaluation of the bug): the schema's CHECK constraint does
restrict `source` to `map`/`address`, and the handler's default resolution
yields `"map"` for an absent, null or empty source — but no create ever
persists a row: `create_cat_sighting` passes `spotted_at=` to the mapped
constructor (src/main.py:165) while the ORM class maps no such attribute
(src/models.py), so every call raises `TypeError` before reaching storage
and the CHECK constraint never fires. -/
theorem source_policy_bug :
    (∀ (inp : CreateInput) (raw : List (String × Option String))
        (now : PyDateTime) (newId : Int) (db : List CatSighting),
      createCatSighting inp raw now newId db =
        Except.error CreateError.typeError) ∧
    ("spotted_at" ∈ createKwargs ∧ "spotted_at" ∉ mappedAttrs) ∧
    (∀ v : String, sourceConstraintOK (some v) = true ↔
      (v = "map" ∨ v = "address")) ∧
    resolveSource none = "map" ∧ resolveSource (some "") = "map" := by
  refine ⟨fun inp raw now newId db => rfl, by decide, ?_, rfl, by decide⟩
  intro v
  unfold sourceConstraintOK
  simp

/-- C8: a missing or non-`image/` content type is rejected with a client
error before anything is written; an accepted upload stores the original
filename's lowercased extension when it is allowlisted and `.jpg`
otherwise, never rejecting over the extension. -/
theorem upload_policy_spec (ct fn : Option String) (uuidHex : String) :
    ((ct = none ∨ ∀ s, ct = some s → ¬ ("image/".toList.isPrefixOf s.toList)) →
      uploadImage ct fn uuidHex = Except.error ()) ∧
    (∀ s, ct = some s → "image/".toList.isPrefixOf s.toList →
      uploadImage ct fn uuidHex =
        let ext0 := toLowerStr (pySuffix (fn.getD ""))
        let ext := if ext0 ∈ extAllowlist then ext0 else ".jpg"
        Except.ok ("/uploads/" ++ (uuidHex ++ ext), [uuidHex ++ ext])) := by
  constructor
  · rintro (h | h)
    · simp [uploadImage, h]
    · cases hc : ct with
      | none => simp [uploadImage]
      | some s =>
        have hnp := h s hc
        simp only [uploadImage, hc]
        rw [if_pos]
        simp only [decide_eq_true_eq]
        right
        exact hnp
  · intro s hs hpre
    have hne : ¬ s = "" := by
      rintro rfl
      simp at hpre
    simp only [uploadImage, hs]
    rw [if_neg]
    simp only [decide_eq_true_eq, not_or, not_not]
    exact ⟨hne, hpre⟩

/-- C8 witness: `text/plain` is rejected; `image/png` with filename
`x.bmp` is accepted and stored under a `.jpg` extension. -/
theorem upload_policy_witness :
    uploadImage (some "text/plain") (some "x.bmp") "u1" = Except.error () ∧
    ("image/".toList.isPrefixOf "image/png".toList ∧
      uploadImage (some "image/png") (some "x.bmp") "u1" =
        Except.ok ("/uploads/" ++ ("u1" ++ ".jpg"), ["u1" ++ ".jpg"])) := by
  refine ⟨(upload_policy_spec (some "text/plain") (some "x.bmp") "u1").1
    (Or.inr ?_), by decide,
    (upload_policy_spec (some "image/png") (some "x.bmp") "u1").2
      "image/png" rfl (by decide)⟩
  intro s hs
  cases hs
  decide

/-- C10 (evaluation of the bug): the fallback chain is real — when the
typed parse yields no truthy `cat_name`, the handler re-reads the raw body
and resolves `cat_name` from `cat_name`, `catName`, or the first key whose
name lowercased with underscores removed equals or ends with `catname`
(e.g. `my_cat_name`), and applies no such fallback to `image_url` — but
the resolved value never populates a created row: every create raises
`TypeError` at the mapped constructor (no `spotted_at` attribute on the
ORM class) before a row exists. -/
theorem catname_fallback_bug :
    (∀ (inp : CreateInput) (raw : List (String × Option String))
        (now : PyDateTime),
      (createKwargValues inp raw now).cat_name =
          resolveCatName inp.cat_name raw ∧
        (createKwargValues inp raw now).image_url = inp.image_url) ∧
    resolveCatName none [("my_cat_name", some "Whiskers")] = some "Whiskers" ∧
    resolveCatName none [("cat_name", some "Tom")] = some "Tom" ∧
    resolveCatName none [("catName", some "Jerry")] = some "Jerry" ∧
    resolveCatName (some "Typed") [("my_cat_name", some "W")] = some "Typed" ∧
    resolveCatName none [("other_key", some "x")] = none ∧
    (∀ (inp : CreateInput) (raw : List (String × Option String))
        (now : PyDateTime) (newId : Int) (db : List CatSighting),
      createCatSighting inp raw now newId db =
        Except.error CreateError.typeError) :=
  ⟨fun inp raw now => ⟨rfl, rfl⟩, by decide, by decide, by decide, by decide,
   by decide, fun inp raw now newId db => rfl⟩

/-- C2: range resolution policy. `end` absent → now; `end` present → that
calendar day at 23:59:59.999999; `start` absent → `end` minus exactly 29
days (epoch arithmetic), preserving `end`'s time-of-day; `start` present →
that calendar day at 00:00:00.000000; the default range is the 30 days
ending now. The final conjunct characterizes the 29-day shift: the
time-of-day fields are preserved and the calendar date is the day-number
of `end`'s date minus 29. -/
theorem date_range_policy_spec (now : PyDateTime) :
    (parseDateRange none none now =
      Except.ok (fromtimestampLocal
        (timestampUs now - 29 * 24 * 3600 * 1000000), now)) ∧
    (∀ es de, es ≠ "" → datetimeFromisoformat es = some de →
      parseDateRange none (some es) now =
        Except.ok (fromtimestampLocal
          (timestampUs (replaceTime de 23 59 59 999999)
            - 29 * 24 * 3600 * 1000000),
          replaceTime de 23 59 59 999999)) ∧
    (∀ ss ds, ss ≠ "" → datetimeFromisoformat ss = some ds →
      parseDateRange (some ss) none now =
        Except.ok (replaceTime ds 0 0 0 0, now)) ∧
    (∀ ss ds es de, ss ≠ "" → es ≠ "" →
      datetimeFromisoformat ss = some ds → datetimeFromisoformat es = some de →
      parseDateRange (some ss) (some es) now =
        Except.ok (replaceTime ds 0 0 0 0, replaceTime de 23 59 59 999999)) ∧
    (∀ t : PyDateTime, t.valid → t.tz = none →
      (fromtimestampLocal (timestampUs t - 29 * 24 * 3600 * 1000000)).hour
          = t.hour ∧
      (fromtimestampLocal (timestampUs t - 29 * 24 * 3600 * 1000000)).minute
          = t.minute ∧
      (fromtimestampLocal (timestampUs t - 29 * 24 * 3600 * 1000000)).second
          = t.second ∧
      (fromtimestampLocal (timestampUs t - 29 * 24 * 3600 * 1000000)).microsecond
          = t.microsecond ∧
      (fromtimestampLocal (timestampUs t - 29 * 24 * 3600 * 1000000)).year
          = (civilFromDays
              (daysFromCivil (t.year : Int) t.month t.day - 29)).1.toNat ∧
      (fromtimestampLocal (timestampUs t - 29 * 24 * 3600 * 1000000)).month
          = (civilFromDays
              (daysFromCivil (t.year : Int) t.month t.day - 29)).2.1 ∧
      (fromtimestampLocal (timestampUs t - 29 * 24 * 3600 * 1000000)).day
          = (civilFromDays
              (daysFromCivil (t.year : Int) t.month t.day - 29)).2.2) := by
  refine ⟨rfl, ?_, ?_, ?_, ?_⟩
  · intro es de hne hp
    simp [parseDateRange, hne, hp, except_bind_ok]
  · intro ss ds hne hp
    simp [parseDateRange, hne, hp, except_bind_ok]
  · intro ss ds es de hnes hnee hps hpe
    simp [parseDateRange, hnes, hnee, hps, hpe, except_bind_ok]
  · intro t hv htz
    obtain ⟨hy1, hy2, hm1, hm2, hd1, hd2, hh, hmi, hse, hus⟩ := hv
    have hts : timestampUs t - 29 * 24 * 3600 * 1000000 =
        (((t.hour * 3600 + t.minute * 60 + t.second) * 1000000
            + t.microsecond : Nat) : Int)
          + (daysFromCivil (t.year : Int) t.month t.day - 29) * 86400000000 := by
      unfold timestampUs
      rw [htz]
      simp only [Option.getD_none]
      push_cast
      ring
    have htodlt :
        ((t.hour * 3600 + t.minute * 60 + t.second) * 1000000
          + t.microsecond : Nat) < 86400000000 := by omega
    have hsplit := ediv_emod_split
      (((t.hour * 3600 + t.minute * 60 + t.second) * 1000000
          + t.microsecond : Nat) : Int)
      (daysFromCivil (t.year : Int) t.month t.day - 29) 86400000000
      (by norm_num) (by positivity) (by exact_mod_cast htodlt)
    have hediv : (timestampUs t - 29 * 24 * 3600 * 1000000).ediv 86400000000 =
        daysFromCivil (t.year : Int) t.month t.day - 29 := by
      rw [hts]
      exact hsplit.1
    have hemod : (timestampUs t - 29 * 24 * 3600 * 1000000).emod 86400000000 =
        (((t.hour * 3600 + t.minute * 60 + t.second) * 1000000
            + t.microsecond : Nat) : Int) := by
      rw [hts]
      exact hsplit.2
    rcases hcd : civilFromDays
        (daysFromCivil (t.year : Int) t.month t.day - 29) with ⟨y, m, d⟩
    have hst : fromtimestampLocal (timestampUs t - 29 * 24 * 3600 * 1000000) =
        { year := y.toNat, month := m, day := d,
          hour := ((t.hour * 3600 + t.minute * 60 + t.second) * 1000000
                    + t.microsecond) / 1000000 / 3600,
          minute := ((t.hour * 3600 + t.minute * 60 + t.second) * 1000000
                    + t.microsecond) / 1000000 % 3600 / 60,
          second := ((t.hour * 3600 + t.minute * 60 + t.second) * 1000000
                    + t.microsecond) / 1000000 % 60,
          microsecond := ((t.hour * 3600 + t.minute * 60 + t.second) * 1000000
                    + t.microsecond) % 1000000,
          tz := none } := by
      simp only [fromtimestampLocal, hediv, hemod, hcd, Int.toNat_natCast]
    rw [hst]
    simp only [hcd]
    refine ⟨by omega, by omega, by omega, by omega, by trivial, by trivial,
            by trivial⟩

/-- C2 witness: the policy at `end = "2024-01-15"` with a concrete clock:
the end bound is 2024-01-15 23:59:59.999999 and the derived start bound is
2023-12-17 at the same time of day, 29 days earlier. -/
theorem date_range_policy_witness :
    (("2024-01-15" : String) ≠ "" ∧
      datetimeFromisoformat "2024-01-15" =
        some ⟨2024, 1, 15, 0, 0, 0, 0, none⟩) ∧
    parseDateRange none (some "2024-01-15") ⟨2024, 5, 1, 10, 0, 0, 0, none⟩ =
      Except.ok (fromtimestampLocal
        (timestampUs (replaceTime ⟨2024, 1, 15, 0, 0, 0, 0, none⟩ 23 59 59 999999)
          - 29 * 24 * 3600 * 1000000),
        replaceTime ⟨2024, 1, 15, 0, 0, 0, 0, none⟩ 23 59 59 999999) ∧
    fromtimestampLocal
        (timestampUs (replaceTime ⟨2024, 1, 15, 0, 0, 0, 0, none⟩ 23 59 59 999999)
          - 29 * 24 * 3600 * 1000000) =
      ⟨2023, 12, 17, 23, 59, 59, 999999, none⟩ :=
  ⟨⟨by decide, by decide⟩,
   (date_range_policy_spec ⟨2024, 5, 1, 10, 0, 0, 0, none⟩).2.1
     "2024-01-15" ⟨2024, 1, 15, 0, 0, 0, 0, none⟩ (by decide) (by decide),
   by decide⟩

/-- A find is determined by the predicate's values on the list. -/
theorem find?_congr_mem {α : Type} {p q : α → Bool} :
    ∀ {l : List α}, (∀ x ∈ l, p x = q x) → l.find? p = l.find? q := by
  intro l
  induction l with
  | nil => intro _; rfl
  | cons a t ih =>
    intro h
    simp only [List.find?_cons]
    rw [h a (List.mem_cons_self a t)]
    cases hq : q a with
    | true => rfl
    | false => exact ih (fun x hx => h x (List.mem_cons_of_mem a hx))

/-- A find with an equality test finds the element itself. -/
theorem find?_beq_of_mem {α : Type} [BEq α] [LawfulBEq α] {σ : α} :
    ∀ {l : List α}, σ ∈ l → l.find? (fun x => x == σ) = some σ := by
  intro l
  induction l with
  | nil => intro h; cases h
  | cons a t ih =>
    intro h
    simp only [List.find?_cons]
    cases hab : a == σ with
    | true =>
      exact congrArg some (eq_of_beq hab)
    | false =>
      rcases List.mem_cons.mp h with h1 | h1
      · rw [h1] at hab
        simp at hab
      · exact ih h1

/-- Counting does not depend on the (lawful) `BEq` instance used. -/
theorem count_inst_congr {α : Type} [i1 : BEq α] [LawfulBEq α]
    [DecidableEq α] (x : α) (l : List α) :
    @List.count α i1 x l = @List.count α instBEqOfDecidableEq x l := by
  rw [@List.count_eq_countP α i1, @List.count_eq_countP α instBEqOfDecidableEq]
  refine List.countP_congr ?_
  intro y _
  simp

/-- Restatement of `List.sum_map_count_dedup_eq_length` for any lawful `BEq` instance. -/
theorem sum_map_count_dedup_eq_len {α : Type} [BEq α] [LawfulBEq α]
    [DecidableEq α] (l : List α) :
    (l.dedup.map fun x => l.count x).sum = l.length := by
  have h : (fun x => l.count x) =
      (fun x => @List.count α instBEqOfDecidableEq x l) :=
    funext fun x => count_inst_congr x l
  rw [h]
  exact List.sum_map_count_dedup_eq_length l

/-- C5: over the resolved range, `total` counts the rows with `created_at`
within the inclusive bounds; `by_source` maps each source value to its
count of matching rows, with a NULL source bucketed under `"unknown"`; and
the `by_source` counts sum to `total`. -/
theorem summary_by_source_spec (db : List CatSighting) (s e : PyDateTime)
    (hs : ∀ r ∈ db, r.source ≠ some "" ∧ r.source ≠ some "unknown") :
    summaryTotal db s e = db.countP (fun r =>
      decide (dtCode s ≤ dtCode r.created_at ∧ dtCode r.created_at ≤ dtCode e)) ∧
    (∀ k : String, k ≠ "unknown" →
      (alistGet (bySource db s e) k).getD 0 =
        (matchingRows db s e).countP (fun r => r.source == some k)) ∧
    ((alistGet (bySource db s e) "unknown").getD 0 =
      (matchingRows db s e).countP (fun r => r.source == none)) ∧
    ((bySource db s e).map (fun p => p.2)).sum = summaryTotal db s e := by
  have hsrcs : ∀ x ∈ (matchingRows db s e).map (fun r => r.source),
      x ≠ some "" ∧ x ≠ some "unknown" := by
    intro x hx
    rcases List.mem_map.mp hx with ⟨r, hr, hrx⟩
    rw [← hrx]
    exact hs r (List.mem_of_mem_filter hr)
  have main : ∀ (σ : Option String) (k : String),
      (∀ src ∈ (matchingRows db s e).map (fun r => r.source),
        ((sourceKey src == k) = (src == σ))) →
      (alistGet (bySource db s e) k).getD 0 =
        ((matchingRows db s e).map (fun r => r.source)).count σ := by
    intro σ k hpred
    unfold bySource alistGet
    rw [List.find?_map]
    have hc : ∀ x ∈ ((matchingRows db s e).map (fun r => r.source)).dedup,
        (((fun p => p.1 == k) ∘ fun src =>
          (sourceKey src, ((matchingRows db s e).map (fun r => r.source)).count src)) x)
          = (x == σ) := by
      intro x hx
      exact hpred x (List.mem_dedup.mp hx)
    rw [find?_congr_mem hc]
    by_cases hσ : σ ∈ ((matchingRows db s e).map (fun r => r.source)).dedup
    · rw [find?_beq_of_mem hσ]
      rfl
    · rw [List.find?_eq_none.mpr (fun x hx hbeq => hσ (by
        have : x = σ := by simpa using hbeq
        rwa [← this]))]
      simp only [Option.map_none', Option.getD_none]
      exact (List.count_eq_zero.mpr (fun hmem => hσ (List.mem_dedup.mpr hmem))).symm
  refine ⟨(List.countP_eq_length_filter _ _).symm, ?_, ?_, ?_⟩
  · intro k hk
    rw [main (some k) k ?_, List.count_eq_countP, List.countP_map]
    · rfl
    · intro src hsrc
      rcases src with _ | v
      · simp [sourceKey, hk, Ne.symm hk]
      · rcases hsrcs _ hsrc with ⟨h1, h2⟩
        have hv : v ≠ "" := fun hv => h1 (by rw [hv])
        simp [sourceKey, hv]
  · rw [main none "unknown" ?_, List.count_eq_countP, List.countP_map]
    · rfl
    · intro src hsrc
      rcases src with _ | v
      · simp [sourceKey]
      · rcases hsrcs _ hsrc with ⟨h1, h2⟩
        have hv : v ≠ "" := fun hv => h1 (by rw [hv])
        have hu : v ≠ "unknown" := fun hu => h2 (by rw [hu])
        simp [sourceKey, hv, hu]
  · unfold bySource summaryTotal
    rw [List.map_map]
    have : ((fun p => p.2) ∘ fun src =>
        (sourceKey src, ((matchingRows db s e).map (fun r => r.source)).count src)) =
        fun src => ((matchingRows db s e).map (fun r => r.source)).count src := rfl
    rw [this, sum_map_count_dedup_eq_len, List.length_map]

/-- C5 witness: on the three-row store over a containing range, the by-source
lookup agrees with the filtered counts, and evaluates to
`total=3, map↦2, address↦1`. -/
theorem summary_by_source_witness :
    (∀ r ∈ dbC5, r.source ≠ some "" ∧ r.source ≠ some "unknown") ∧
    ((alistGet (bySource dbC5 ⟨2024,1,1,0,0,0,0,none⟩ ⟨2024,12,31,0,0,0,0,none⟩)
        "map").getD 0 =
      (matchingRows dbC5 ⟨2024,1,1,0,0,0,0,none⟩
        ⟨2024,12,31,0,0,0,0,none⟩).countP (fun r => r.source == some "map")) ∧
    summaryTotal dbC5 ⟨2024,1,1,0,0,0,0,none⟩ ⟨2024,12,31,0,0,0,0,none⟩ = 3 ∧
    (alistGet (bySource dbC5 ⟨2024,1,1,0,0,0,0,none⟩ ⟨2024,12,31,0,0,0,0,none⟩)
        "map").getD 0 = 2 ∧
    (alistGet (bySource dbC5 ⟨2024,1,1,0,0,0,0,none⟩ ⟨2024,12,31,0,0,0,0,none⟩)
        "address").getD 0 = 1 :=
  ⟨by decide,
   (summary_by_source_spec dbC5 ⟨2024,1,1,0,0,0,0,none⟩
      ⟨2024,12,31,0,0,0,0,none⟩ (by decide)).2.1 "map" (by decide),
   by decide, by decide, by decide⟩

/-- Decoding inverts `CalDate.code` on in-range dates. -/
theorem decode_code_of_valid (cd : CalDate) (h1 : 1 ≤ cd.month)
    (h2 : cd.month ≤ 12) (h3 : cd.day ≤ 31) : decodeDate cd.code = cd := by
  rcases cd with ⟨y, m, d⟩
  unfold decodeDate CalDate.code
  simp only [CalDate.mk.injEq]
  refine ⟨?_, ?_, ?_⟩ <;> simp at h1 h2 h3 ⊢ <;> omega

/-- On in-range dates the numeric encoding is strictly monotone for the
calendar order. -/
theorem code_lt_iff (a b : CalDate) (ha1 : 1 ≤ a.month) (ha2 : a.month ≤ 12)
    (ha3 : a.day ≤ 31) (hb1 : 1 ≤ b.month) (hb2 : b.month ≤ 12)
    (hb3 : b.day ≤ 31) : a.code < b.code ↔ a.before b := by
  rcases a with ⟨ay, am, ad⟩
  rcases b with ⟨by_, bm, bd⟩
  unfold CalDate.code CalDate.before
  simp only at ha1 ha2 ha3 hb1 hb2 hb3 ⊢
  omega

/-- C6: `per_day` lists, in strictly ascending calendar order with no date
repeated, exactly the dates having at least one matching row, each paired
with that date's matching-row count (which is positive). -/
theorem per_day_spec (db : List CatSighting) (s e : PyDateTime)
    (hv : ∀ r ∈ db, r.created_at.valid) :
    List.Chain' (fun a b => a.1.before b.1) (perDay db s e) ∧
    ((perDay db s e).map Prod.fst).Nodup ∧
    (∀ d : CalDate, d ∈ (perDay db s e).map Prod.fst ↔
      0 < (matchingRows db s e).countP
        (fun r => dateOfDT r.created_at == d)) ∧
    (∀ p ∈ perDay db s e,
      p.2 = (matchingRows db s e).countP
        (fun r => dateOfDT r.created_at == p.1) ∧ 0 < p.2) := by
  set M := matchingRows db s e with hM
  set codes := M.map (fun r => (dateOfDT r.created_at).code) with hcodes
  set sortC := codes.toFinset.sort (· ≤ ·) with hsortC
  have hperDay : perDay db s e =
      sortC.map (fun c => (decodeDate c, codes.count c)) := rfl
  have hkey : ∀ c ∈ codes, (decodeDate c).code = c ∧
      1 ≤ (decodeDate c).month ∧ (decodeDate c).month ≤ 12 ∧
      (decodeDate c).day ≤ 31 := by
    intro c hc
    rcases List.mem_map.mp hc with ⟨r, hr, hrc⟩
    obtain ⟨_, _, hm1, hm2, hd1, hd2, _⟩ :=
      hv r (List.mem_of_mem_filter (hM ▸ hr))
    have hdec : decodeDate c = dateOfDT r.created_at := by
      rw [← hrc]
      exact decode_code_of_valid _ hm1 hm2 hd2
    rw [hdec, ← hrc]
    exact ⟨rfl, hm1, hm2, hd2⟩
  have hmem_sort : ∀ {c : Nat}, c ∈ sortC ↔ c ∈ codes := by
    intro c
    rw [hsortC, Finset.mem_sort, List.mem_toFinset]
  have hvalidM : ∀ r ∈ M, 1 ≤ (dateOfDT r.created_at).month ∧
      (dateOfDT r.created_at).month ≤ 12 ∧
      (dateOfDT r.created_at).day ≤ 31 := by
    intro r hr
    obtain ⟨_, _, hm1, hm2, hd1, hd2, _⟩ :=
      hv r (List.mem_of_mem_filter (hM ▸ hr))
    exact ⟨hm1, hm2, hd2⟩
  have hmapfst : (perDay db s e).map Prod.fst = sortC.map decodeDate := by
    rw [hperDay, List.map_map]
    rfl
  refine ⟨?_, ?_, ?_, ?_⟩
  · have hsorted : sortC.Sorted (· < ·) := by
      rw [hsortC]
      exact Finset.sort_sorted_lt _
    have hpw : sortC.Pairwise
        (fun c1 c2 => (decodeDate c1).before (decodeDate c2)) := by
      refine List.Pairwise.imp_of_mem ?_ hsorted
      intro c1 c2 h1 h2 hlt
      rcases hkey c1 (hmem_sort.mp h1) with ⟨he1, hm11, hm12, hm13⟩
      rcases hkey c2 (hmem_sort.mp h2) with ⟨he2, hm21, hm22, hm23⟩
      rw [← code_lt_iff _ _ hm11 hm12 hm13 hm21 hm22 hm23, he1, he2]
      exact hlt
    rw [hperDay]
    exact List.Pairwise.chain' (List.pairwise_map.mpr hpw)
  · rw [hmapfst]
    refine List.Nodup.map_on ?_ ?_
    · intro c1 h1 c2 h2 heq
      rcases hkey c1 (hmem_sort.mp h1) with ⟨he1, _⟩
      rcases hkey c2 (hmem_sort.mp h2) with ⟨he2, _⟩
      rw [← he1, ← he2, heq]
    · rw [hsortC]
      exact Finset.sort_nodup _ _
  · intro d
    rw [hmapfst]
    constructor
    · intro hd
      rcases List.mem_map.mp hd with ⟨c, hcs, hdc⟩
      rcases List.mem_map.mp (hmem_sort.mp hcs) with ⟨r, hr, hrc⟩
      refine List.countP_pos_iff.mpr ⟨r, hr, ?_⟩
      rcases hvalidM r hr with ⟨hm1, hm2, hd2⟩
      have : dateOfDT r.created_at = d := by
        rw [← hdc, ← hrc]
        exact (decode_code_of_valid _ hm1 hm2 hd2).symm
      simp [this]
    · intro hpos
      obtain ⟨r, hr, hbeq⟩ := List.countP_pos_iff.mp hpos
      have hrd : dateOfDT r.created_at = d := by simpa using hbeq
      rcases hvalidM r hr with ⟨hm1, hm2, hd2⟩
      refine List.mem_map.mpr ⟨(dateOfDT r.created_at).code,
        hmem_sort.mpr (List.mem_map.mpr ⟨r, hr, rfl⟩), ?_⟩
      rw [decode_code_of_valid _ hm1 hm2 hd2, hrd]
  · intro p hp
    rw [hperDay] at hp
    rcases List.mem_map.mp hp with ⟨c, hcs, hfc⟩
    have hc : c ∈ codes := hmem_sort.mp hcs
    rcases hkey c hc with ⟨hcode, hm1, hm2, hm3⟩
    have hcount : codes.count c =
        M.countP (fun r => dateOfDT r.created_at == decodeDate c) := by
      rw [hcodes, List.count_eq_countP, List.countP_map]
      refine List.countP_congr ?_
      intro r hr
      rcases hvalidM r hr with ⟨hrm1, hrm2, hrd2⟩
      simp only [Function.comp, beq_iff_eq, decide_eq_true_eq]
      constructor
      · intro h
        rw [← h]
        exact (decode_code_of_valid _ hrm1 hrm2 hrd2).symm
      · intro h
        rw [← hcode, h]
    constructor
    · rw [← hfc, hcount]
    · rw [← hfc]
      exact List.count_pos_iff.mpr hc

/-- C6 witness: the per-day property instantiated on the concrete
three-row store (dates 2024-06-01 with one row, 2024-06-02 with two). -/
theorem per_day_witness :
    (∀ r ∈ dbC5, r.created_at.valid) ∧
    (∀ p ∈ perDay dbC5 ⟨2024,1,1,0,0,0,0,none⟩ ⟨2024,12,31,0,0,0,0,none⟩,
      p.2 = (matchingRows dbC5 ⟨2024,1,1,0,0,0,0,none⟩
          ⟨2024,12,31,0,0,0,0,none⟩).countP
        (fun r => dateOfDT r.created_at == p.1) ∧ 0 < p.2) :=
  ⟨by decide,
   (per_day_spec dbC5 ⟨2024,1,1,0,0,0,0,none⟩ ⟨2024,12,31,0,0,0,0,none⟩
      (by decide)).2.2.2⟩

/-- C7: the CSV export resolves the range through the same function as the
summary and filters identically, so its data-row count equals the summary's
total; the header is exactly the 11 fixed column names; data rows are in
descending `created_at` order. -/
theorem export_csv_spec (start? end? : Option String) (now : PyDateTime)
    (db : List CatSighting) (s e : PyDateTime)
    (h : parseDateRange start? end? now = Except.ok (s, e)) :
    exportReportsCsv start? end? now db =
      Except.ok (csvHeader :: (exportRows db s e).map renderRow) ∧
    csvHeader = ["id", "lat", "lng", "address", "description", "cat_name",
      "image_url", "source", "spotted_at", "created_at", "updated_at"] ∧
    csvHeader.length = 11 ∧
    ((exportRows db s e).map renderRow).length = summaryTotal db s e ∧
    (∀ out, getReportsSummary start? end? now db = Except.ok out →
      out.total = summaryTotal db s e) ∧
    List.Sorted (fun a b => dtCode b.created_at ≤ dtCode a.created_at)
      (exportRows db s e) := by
  refine ⟨?_, rfl, rfl, ?_, ?_, ?_⟩
  · unfold exportReportsCsv
    rw [h, except_bind_ok]
    rfl
  · rw [List.length_map]
    unfold exportRows summaryTotal
    exact (List.perm_insertionSort _ _).length_eq
  · intro out hout
    unfold getReportsSummary at hout
    rw [h, except_bind_ok] at hout
    cases hout
    rfl
  · unfold exportRows
    letI : IsTotal CatSighting
        (fun a b => dtCode b.created_at ≤ dtCode a.created_at) :=
      ⟨fun a b => (Int.le_total (dtCode a.created_at) (dtCode b.created_at)).symm⟩
    letI : IsTrans CatSighting
        (fun a b => dtCode b.created_at ≤ dtCode a.created_at) :=
      ⟨fun _ _ _ h1 h2 => le_trans h2 h1⟩
    exact List.sorted_insertionSort _ _

/-- C7 witness: a concrete range resolution and the row-count equality for
the three-row store. -/
theorem export_csv_witness :
    (parseDateRange (some "2024-01-01") (some "2024-12-31")
        ⟨2025,1,1,0,0,0,0,none⟩ =
      Except.ok (⟨2024,1,1,0,0,0,0,none⟩, ⟨2024,12,31,23,59,59,999999,none⟩)) ∧
    ((exportRows dbC5 ⟨2024,1,1,0,0,0,0,none⟩
        ⟨2024,12,31,23,59,59,999999,none⟩).map renderRow).length =
      summaryTotal dbC5 ⟨2024,1,1,0,0,0,0,none⟩
        ⟨2024,12,31,23,59,59,999999,none⟩ :=
  ⟨by decide,
   (export_csv_spec (some "2024-01-01") (some "2024-12-31")
      ⟨2025,1,1,0,0,0,0,none⟩ dbC5 ⟨2024,1,1,0,0,0,0,none⟩
      ⟨2024,12,31,23,59,59,999999,none⟩ (by decide)).2.2.2.1⟩
